import Mathlib

/-!
Verification of the repository-standards scanner of
`src/archive/agentsPart2/repo_standards_agent.py`.

The Python source declares a class `RepoStandardsAgent` whose constructor
stores a repository path and whose six public methods all have the body
`pass` (they return `None` and perform no effect).  The first part of this
file embeds that code as it stands.  The second part models the
`StandardsScanner` design that the specification gives for the
unimplemented method bodies; the theorems settle the specification's
claims against those definitions.
-/

namespace RepoStandards

/-- Modelled from the spec: status of one check, ordered
`PASS < WARN < FAIL` by severity. -/
inductive Status where
  | PASS
  | WARN
  | FAIL
deriving DecidableEq, Repr

/-- Numeric severity realising the order `PASS < WARN < FAIL`. -/
def Status.sev : Status → Nat
  | .PASS => 0
  | .WARN => 1
  | .FAIL => 2

/-- Maximum of two statuses under the severity order. -/
def Status.max (a b : Status) : Status :=
  if a.sev ≤ b.sev then b else a

/-- Modelled from the spec: a Finding is
`\x7b check_name, status, message, auto_fixed \x7d`, produced by one check
and immutable once produced. -/
structure Finding where
  check_name : String
  status : Status
  message : String
  auto_fixed : Bool
deriving DecidableEq, Repr

/-- Modelled from the spec: a Report is an ordered sequence of Findings
plus an overall status (worst of all Finding statuses). -/
structure Report where
  findings : List Finding
  overall : Status
deriving DecidableEq, Repr

/-! ## Embedding of the source code as it stands

Every method body in the Python class is `pass`: each call returns `None`
and performs no filesystem access.  To let the theorems speak about
effects, each method is threaded through an arbitrary world state `σ`,
which it returns unchanged.  The path argument is of an arbitrary type
`α`, since the Python constructor accepts any value without validation. -/

/-- Embedding of the class `RepoStandardsAgent`: its constructor stores
the given `repo_path` in the single instance attribute. -/
structure RepoStandardsAgent (α : Type) where
  repo_path : α

/-- Embedding of method `scan_gitignore`, whose body is `pass`. -/
def RepoStandardsAgent.scan_gitignore {α σ : Type}
    (_ : RepoStandardsAgent α) (w : σ) : Option Finding × σ := (none, w)

/-- Embedding of method `scan_ci_workflow`, whose body is `pass`. -/
def RepoStandardsAgent.scan_ci_workflow {α σ : Type}
    (_ : RepoStandardsAgent α) (w : σ) : Option Finding × σ := (none, w)

/-- Embedding of method `scan_branch_structure`, whose body is `pass`. -/
def RepoStandardsAgent.scan_branch_structure {α σ : Type}
    (_ : RepoStandardsAgent α) (w : σ) : Option Finding × σ := (none, w)

/-- Embedding of method `scan_large_files`, whose body is `pass`. -/
def RepoStandardsAgent.scan_large_files {α σ : Type}
    (_ : RepoStandardsAgent α) (w : σ) : Option Finding × σ := (none, w)

/-- Embedding of method `scan_commit_hygiene`, whose body is `pass`. -/
def RepoStandardsAgent.scan_commit_hygiene {α σ : Type}
    (_ : RepoStandardsAgent α) (w : σ) : Option Finding × σ := (none, w)

/-- Embedding of method `generate_report`, whose body is `pass`. -/
def RepoStandardsAgent.generate_report {α σ : Type}
    (_ : RepoStandardsAgent α) (w : σ) : Option Report × σ := (none, w)

/-! ## Model of the specified `StandardsScanner`

The implementation of the checks is absent from the source (the methods
are stubs), so the scanner is modelled from the specification, section 4. -/

/-- Modelled from the spec: metadata of one commit in the history
(timestamp and diff size). -/
structure Commit where
  timestamp : Nat
  diffSize : Nat
deriving DecidableEq, Repr

/-- Modelled from the spec: abstract state of the scan target: whether the
root path exists and is readable, whether it is a valid repository,
presence of a `.gitignore` and of a CI workflow file, the local branches,
the tracked files with their sizes, the files tracked via a large-file
extension mechanism, and the commit history. -/
structure Repo where
  pathExists : Bool
  readable : Bool
  isValidRepo : Bool
  hasGitignore : Bool
  hasCIWorkflow : Bool
  branches : List String
  trackedFiles : List (String × Nat)
  lfsTracked : List String
  commits : List Commit
deriving DecidableEq, Repr

/-- Modelled from the spec: the explicit configuration struct passed into
the scanner at construction: the auto-generation flag, the large-file
size threshold, the branch naming convention (allowed names and allowed
name patterns such as the feature pattern), and the commit-hygiene knobs
(lookback window relative to the current time, average commit size
threshold, minimum commit count in the window). -/
structure Config where
  autoGenerate : Bool
  sizeThreshold : Nat
  allowedNames : List String
  allowedPatterns : List String
  lookback : Nat
  now : Nat
  avgSizeThreshold : Nat
  minCommitCount : Nat
deriving DecidableEq, Repr

/-- Modelled from the spec: `checkIgnoreFile` looks for a `.gitignore` at
the root; if absent, optionally writes a language-appropriate default;
status WARN if missing and not generated, PASS otherwise. -/
def checkIgnoreFile (cfg : Config) (r : Repo) : Finding × Repo :=
  if r.hasGitignore then
    (⟨"gitignore", .PASS, "gitignore present", false⟩, r)
  else if cfg.autoGenerate then
    (⟨"gitignore", .PASS, "gitignore missing, default generated", true⟩,
      { r with hasGitignore := true })
  else
    (⟨"gitignore", .WARN, "gitignore missing", false⟩, r)

/-- Modelled from the spec: `checkCIWorkflow` looks for a recognized CI
configuration file under a conventional directory; same
present/generate/WARN logic as the ignore-file check. -/
def checkCIWorkflow (cfg : Config) (r : Repo) : Finding × Repo :=
  if r.hasCIWorkflow then
    (⟨"ci_workflow", .PASS, "CI workflow present", false⟩, r)
  else if cfg.autoGenerate then
    (⟨"ci_workflow", .PASS, "CI workflow missing, default generated", true⟩,
      { r with hasCIWorkflow := true })
  else
    (⟨"ci_workflow", .WARN, "CI workflow missing", false⟩, r)

/-- A branch name conforms to the configured naming convention when it is
one of the allowed names or starts with one of the allowed patterns. -/
def branchConforms (cfg : Config) (b : String) : Bool :=
  cfg.allowedNames.contains b || cfg.allowedPatterns.any (fun p => b.startsWith p)

/-- Modelled from the spec: `checkBranchStructure` inspects local branch
naming for conformance to the configured convention; WARN on deviation,
informational only.  On a path that is not a valid repository it
downgrades to a FAIL Finding with a descriptive message. -/
def checkBranchStructure (cfg : Config) (r : Repo) : Finding × Repo :=
  if r.isValidRepo then
    if r.branches.all (branchConforms cfg) then
      (⟨"branch_structure", .PASS, "branch structure conforms", false⟩, r)
    else
      (⟨"branch_structure", .WARN, "branch naming deviates from convention", false⟩, r)
  else
    (⟨"branch_structure", .FAIL, "not a valid repository", false⟩, r)

/-- Modelled from the spec: `checkLargeFiles` walks the working tree and
flags any tracked file above the configured size threshold; FAIL if such
a file is tracked directly (not via a large-file extension mechanism).
On a path that is not a valid repository it downgrades to a FAIL Finding
with a descriptive message. -/
def checkLargeFiles (cfg : Config) (r : Repo) : Finding × Repo :=
  if r.isValidRepo then
    if r.trackedFiles.any
        (fun f => decide (cfg.sizeThreshold < f.2) && !(r.lfsTracked.contains f.1)) then
      (⟨"large_files", .FAIL, "tracked file exceeds size threshold", false⟩, r)
    else
      (⟨"large_files", .PASS, "no oversized tracked files", false⟩, r)
  else
    (⟨"large_files", .FAIL, "not a valid repository", false⟩, r)

/-- Commits inside the configured lookback window. -/
def recentCommits (cfg : Config) (r : Repo) : List Commit :=
  r.commits.filter (fun c => decide (cfg.now - cfg.lookback ≤ c.timestamp))

/-- Modelled from the spec: `checkCommitHygiene` inspects commit history
metadata over a lookback window; WARN if average commit size exceeds a
threshold or commit frequency falls below a threshold; FAIL with a
descriptive message when there is no history or the path is not a valid
repository. -/
def checkCommitHygiene (cfg : Config) (r : Repo) : Finding × Repo :=
  if r.isValidRepo then
    if r.commits.isEmpty then
      (⟨"commit_hygiene", .FAIL, "no commit history", false⟩, r)
    else
      if decide (cfg.avgSizeThreshold <
            ((recentCommits cfg r).map Commit.diffSize).sum
              / Nat.max (recentCommits cfg r).length 1)
          || decide ((recentCommits cfg r).length < cfg.minCommitCount) then
        (⟨"commit_hygiene", .WARN, "commit hygiene below recommended thresholds", false⟩, r)
      else
        (⟨"commit_hygiene", .PASS, "commit hygiene within thresholds", false⟩, r)
  else
    (⟨"commit_hygiene", .FAIL, "not a valid repository", false⟩, r)

/-- Runs the five checks in the fixed order of the specification,
threading the repository state, and collects the Findings in order. -/
def runChecks (cfg : Config) (r : Repo) : List Finding × Repo :=
  let p1 := checkIgnoreFile cfg r
  let p2 := checkCIWorkflow cfg p1.2
  let p3 := checkBranchStructure cfg p2.2
  let p4 := checkLargeFiles cfg p3.2
  let p5 := checkCommitHygiene cfg p4.2
  ([p1.1, p2.1, p3.1, p4.1, p5.1], p5.2)

/-- Overall status of a list of Findings: the maximum severity observed,
starting from PASS. -/
def overallStatus (fs : List Finding) : Status :=
  fs.foldl (fun a f => Status.max a f.status) .PASS

/-- Modelled from the spec: `generateReport` runs all checks in a fixed
order, collects Findings into a Report, and computes the overall status
as the maximum severity observed. -/
def generateReport (cfg : Config) (r : Repo) : Report × Repo :=
  (⟨(runChecks cfg r).1, overallStatus (runChecks cfg r).1⟩, (runChecks cfg r).2)

/-- Modelled from the spec: top-level error kinds surfaced before any
check runs. -/
inductive ScanError where
  | PathNotFound
  | PermissionDenied
deriving DecidableEq, Repr

/-- Modelled from the spec: the top-level invocation fails only if the
root path itself does not exist or is not readable, surfaced as a single
terminal error before any checks run; otherwise it runs the scan. -/
def runScan (cfg : Config) (r : Repo) : Except ScanError (Report × Repo) :=
  if r.pathExists then
    if r.readable then
      Except.ok (generateReport cfg r)
    else
      Except.error ScanError.PermissionDenied
  else
    Except.error ScanError.PathNotFound

/-! ## Helper lemmas -/

theorem Status.pass_max (b : Status) : Status.max .PASS b = b := by
  cases b <;> decide

theorem Status.max5_ub (a b c d e : Status) :
    a.sev ≤ ((((a.max b).max c).max d).max e).sev
    ∧ b.sev ≤ ((((a.max b).max c).max d).max e).sev
    ∧ c.sev ≤ ((((a.max b).max c).max d).max e).sev
    ∧ d.sev ≤ ((((a.max b).max c).max d).max e).sev
    ∧ e.sev ≤ ((((a.max b).max c).max d).max e).sev := by
  cases a <;> cases b <;> cases c <;> cases d <;> cases e <;> decide

theorem Status.max5_mem (a b c d e : Status) :
    (((a.max b).max c).max d).max e = a
    ∨ (((a.max b).max c).max d).max e = b
    ∨ (((a.max b).max c).max d).max e = c
    ∨ (((a.max b).max c).max d).max e = d
    ∨ (((a.max b).max c).max d).max e = e := by
  cases a <;> cases b <;> cases c <;> cases d <;> cases e <;> decide

theorem overallStatus_five (f1 f2 f3 f4 f5 : Finding) :
    overallStatus [f1, f2, f3, f4, f5]
      = ((((f1.status.max f2.status).max f3.status).max f4.status).max f5.status) := by
  simp [overallStatus, List.foldl, Status.pass_max]

theorem checkIgnoreFile_name (cfg : Config) (r : Repo) :
    ((checkIgnoreFile cfg r).1).check_name = "gitignore" := by
  unfold checkIgnoreFile
  split
  · rfl
  · split <;> rfl

theorem checkCIWorkflow_name (cfg : Config) (r : Repo) :
    ((checkCIWorkflow cfg r).1).check_name = "ci_workflow" := by
  unfold checkCIWorkflow
  split
  · rfl
  · split <;> rfl

theorem checkBranchStructure_name (cfg : Config) (r : Repo) :
    ((checkBranchStructure cfg r).1).check_name = "branch_structure" := by
  unfold checkBranchStructure
  split
  · split <;> rfl
  · rfl

theorem checkLargeFiles_name (cfg : Config) (r : Repo) :
    ((checkLargeFiles cfg r).1).check_name = "large_files" := by
  unfold checkLargeFiles
  split
  · split <;> rfl
  · rfl

theorem checkCommitHygiene_name (cfg : Config) (r : Repo) :
    ((checkCommitHygiene cfg r).1).check_name = "commit_hygiene" := by
  unfold checkCommitHygiene
  split
  · split
    · rfl
    · split <;> rfl
  · rfl

theorem runChecks_fst (cfg : Config) (r : Repo) :
    (runChecks cfg r).1 =
      [(checkIgnoreFile cfg r).1,
       (checkCIWorkflow cfg (checkIgnoreFile cfg r).2).1,
       (checkBranchStructure cfg (checkCIWorkflow cfg (checkIgnoreFile cfg r).2).2).1,
       (checkLargeFiles cfg
         (checkBranchStructure cfg (checkCIWorkflow cfg (checkIgnoreFile cfg r).2).2).2).1,
       (checkCommitHygiene cfg
         (checkLargeFiles cfg
           (checkBranchStructure cfg
             (checkCIWorkflow cfg (checkIgnoreFile cfg r).2).2).2).2).1] := rfl

/-! ## Claim theorems -/

/-- Claim C1: for every repository path, `generateReport` runs all five
checks in a fixed order (witnessed by the fixed sequence of check names),
collects their Findings into a Report, and the overall status of the
Report equals the maximum severity among the five Findings under the
order `PASS < WARN < FAIL` (it is an upper bound of the severities and is
attained by one of the Findings). -/
theorem generate_report_runs_checks_and_takes_max (cfg : Config) (r : Repo) :
    ((generateReport cfg r).1).findings.map Finding.check_name
        = ["gitignore", "ci_workflow", "branch_structure", "large_files", "commit_hygiene"]
    ∧ ((generateReport cfg r).1).findings.length = 5
    ∧ (∀ f ∈ ((generateReport cfg r).1).findings,
        f.status.sev ≤ ((generateReport cfg r).1).overall.sev)
    ∧ (∃ f ∈ ((generateReport cfg r).1).findings,
        f.status = ((generateReport cfg r).1).overall) := by
  have hfind : ((generateReport cfg r).1).findings = (runChecks cfg r).1 := rfl
  have hov : ((generateReport cfg r).1).overall = overallStatus (runChecks cfg r).1 := rfl
  rw [hfind, hov, runChecks_fst]
  refine ⟨?_, rfl, ?_, ?_⟩
  · simp [checkIgnoreFile_name, checkCIWorkflow_name, checkBranchStructure_name,
      checkLargeFiles_name, checkCommitHygiene_name]
  · rw [overallStatus_five]
    intro f hf
    obtain ⟨u1, u2, u3, u4, u5⟩ := Status.max5_ub
      (checkIgnoreFile cfg r).1.status
      (checkCIWorkflow cfg (checkIgnoreFile cfg r).2).1.status
      (checkBranchStructure cfg (checkCIWorkflow cfg (checkIgnoreFile cfg r).2).2).1.status
      (checkLargeFiles cfg
        (checkBranchStructure cfg
          (checkCIWorkflow cfg (checkIgnoreFile cfg r).2).2).2).1.status
      (checkCommitHygiene cfg
        (checkLargeFiles cfg
          (checkBranchStructure cfg
            (checkCIWorkflow cfg (checkIgnoreFile cfg r).2).2).2).2).1.status
    simp only [List.mem_cons, List.not_mem_nil, or_false] at hf
    rcases hf with h | h | h | h | h <;> subst h <;> assumption
  · rw [overallStatus_five]
    rcases Status.max5_mem
      (checkIgnoreFile cfg r).1.status
      (checkCIWorkflow cfg (checkIgnoreFile cfg r).2).1.status
      (checkBranchStructure cfg (checkCIWorkflow cfg (checkIgnoreFile cfg r).2).2).1.status
      (checkLargeFiles cfg
        (checkBranchStructure cfg
          (checkCIWorkflow cfg (checkIgnoreFile cfg r).2).2).2).1.status
      (checkCommitHygiene cfg
        (checkLargeFiles cfg
          (checkBranchStructure cfg
            (checkCIWorkflow cfg (checkIgnoreFile cfg r).2).2).2).2).1.status
      with h | h | h | h | h
    · exact ⟨_, by simp, h.symm⟩
    · exact ⟨_, by simp, h.symm⟩
    · exact ⟨_, by simp, h.symm⟩
    · exact ⟨_, by simp, h.symm⟩
    · exact ⟨_, by simp, h.symm⟩

/-- Claim C3: the `.gitignore` check returns a Finding whose status is
WARN exactly when the `.gitignore` is absent at the root and no default
was generated (auto-generation disabled), and PASS otherwise. -/
theorem scan_gitignore_warn_iff (cfg : Config) (r : Repo) :
    (((checkIgnoreFile cfg r).1).status = .WARN
      ↔ (r.hasGitignore = false ∧ cfg.autoGenerate = false))
    ∧ (((checkIgnoreFile cfg r).1).status = .WARN
      ∨ ((checkIgnoreFile cfg r).1).status = .PASS) := by
  cases hg : r.hasGitignore <;> cases ag : cfg.autoGenerate <;>
    simp [checkIgnoreFile, hg, ag]

/-- Claim C10: in the source as written, every public method of
`RepoStandardsAgent` returns `None` leaving the world state untouched
(no filesystem read or write, no exception), and the constructor stores
`repo_path` verbatim without validation, for every path value. -/
theorem agent_stub_methods_return_none {α σ : Type} (p : α) (w : σ) :
    (RepoStandardsAgent.mk p).repo_path = p
    ∧ RepoStandardsAgent.scan_gitignore (RepoStandardsAgent.mk p) w = (none, w)
    ∧ RepoStandardsAgent.scan_ci_workflow (RepoStandardsAgent.mk p) w = (none, w)
    ∧ RepoStandardsAgent.scan_branch_structure (RepoStandardsAgent.mk p) w = (none, w)
    ∧ RepoStandardsAgent.scan_large_files (RepoStandardsAgent.mk p) w = (none, w)
    ∧ RepoStandardsAgent.scan_commit_hygiene (RepoStandardsAgent.mk p) w = (none, w)
    ∧ RepoStandardsAgent.generate_report (RepoStandardsAgent.mk p) w = (none, w) :=
  ⟨rfl, rfl, rfl, rfl, rfl, rfl, rfl⟩

/-! ## Frame lemmas for the repository state -/

theorem checkIgnoreFile_frame (cfg : Config) (r : Repo)
    (h : cfg.autoGenerate = false) : (checkIgnoreFile cfg r).2 = r := by
  cases hg : r.hasGitignore <;> simp [checkIgnoreFile, hg, h]

theorem checkCIWorkflow_frame (cfg : Config) (r : Repo)
    (h : cfg.autoGenerate = false) : (checkCIWorkflow cfg r).2 = r := by
  cases hc : r.hasCIWorkflow <;> simp [checkCIWorkflow, hc, h]

theorem checkBranchStructure_frame (cfg : Config) (r : Repo) :
    (checkBranchStructure cfg r).2 = r := by
  unfold checkBranchStructure
  split
  · split <;> rfl
  · rfl

theorem checkLargeFiles_frame (cfg : Config) (r : Repo) :
    (checkLargeFiles cfg r).2 = r := by
  unfold checkLargeFiles
  split
  · split <;> rfl
  · rfl

theorem checkCommitHygiene_frame (cfg : Config) (r : Repo) :
    (checkCommitHygiene cfg r).2 = r := by
  unfold checkCommitHygiene
  split
  · split
    · rfl
    · split <;> rfl
  · rfl

theorem runChecks_snd (cfg : Config) (r : Repo) :
    (runChecks cfg r).2 = (checkCIWorkflow cfg (checkIgnoreFile cfg r).2).2 := by
  show (checkCommitHygiene cfg
      (checkLargeFiles cfg
        (checkBranchStructure cfg
          (checkCIWorkflow cfg (checkIgnoreFile cfg r).2).2).2).2).2
    = (checkCIWorkflow cfg (checkIgnoreFile cfg r).2).2
  rw [checkCommitHygiene_frame, checkLargeFiles_frame, checkBranchStructure_frame]

theorem generateReport_frame (cfg : Config) (r : Repo)
    (h : cfg.autoGenerate = false) : (generateReport cfg r).2 = r := by
  have : (generateReport cfg r).2 = (runChecks cfg r).2 := rfl
  rw [this, runChecks_snd, checkCIWorkflow_frame _ _ h, checkIgnoreFile_frame _ _ h]

/-- The components of the repository state other than the presence of the
two auto-generable files. -/
def Repo.readOnlyPart (r : Repo) :
    Bool × Bool × Bool × List String × List (String × Nat) × List String × List Commit :=
  (r.pathExists, r.readable, r.isValidRepo, r.branches, r.trackedFiles,
    r.lfsTracked, r.commits)

theorem checkIgnoreFile_readOnlyPart (cfg : Config) (r : Repo) :
    ((checkIgnoreFile cfg r).2).readOnlyPart = r.readOnlyPart := by
  cases hg : r.hasGitignore <;> cases ag : cfg.autoGenerate <;>
    simp [checkIgnoreFile, hg, ag, Repo.readOnlyPart]

theorem checkCIWorkflow_readOnlyPart (cfg : Config) (r : Repo) :
    ((checkCIWorkflow cfg r).2).readOnlyPart = r.readOnlyPart := by
  cases hc : r.hasCIWorkflow <;> cases ag : cfg.autoGenerate <;>
    simp [checkCIWorkflow, hc, ag, Repo.readOnlyPart]

/-! ## Remaining claim theorems -/

/-- Claim C2: on a path that is not a valid repository, each check that
needs the repository (branch structure, large files, commit hygiene)
returns a Finding with status FAIL and a nonempty descriptive message
instead of raising, and `generateReport` still completes and returns a
Report with all five Findings: no failure of a check aborts the scan. -/
theorem checks_downgrade_to_fail_and_scan_completes (cfg : Config) (r : Repo)
    (h : r.isValidRepo = false) :
    ((checkBranchStructure cfg r).1.status = .FAIL
      ∧ (checkBranchStructure cfg r).1.message ≠ "")
    ∧ ((checkLargeFiles cfg r).1.status = .FAIL
      ∧ (checkLargeFiles cfg r).1.message ≠ "")
    ∧ ((checkCommitHygiene cfg r).1.status = .FAIL
      ∧ (checkCommitHygiene cfg r).1.message ≠ "")
    ∧ ((generateReport cfg r).1).findings.length = 5 := by
  refine ⟨⟨?_, ?_⟩, ⟨?_, ?_⟩, ⟨?_, ?_⟩, rfl⟩ <;>
    simp [checkBranchStructure, checkLargeFiles, checkCommitHygiene, h]

/-- Claim C4: for a repository root lacking a `.gitignore`, the ignore
check with auto-generation enabled produces a Finding with
`auto_fixed = true` and the resulting state has a `.gitignore` at the
root. -/
theorem scan_gitignore_autofix (cfg : Config) (r : Repo)
    (h1 : r.hasGitignore = false) (h2 : cfg.autoGenerate = true) :
    (checkIgnoreFile cfg r).1.auto_fixed = true
    ∧ ((checkIgnoreFile cfg r).2).hasGitignore = true := by
  simp [checkIgnoreFile, h1, h2]

/-- Claim C5: whenever some tracked file exceeds the configured size
threshold and is tracked directly (not via the large-file extension
mechanism), the large-file check returns a Finding with status FAIL. -/
theorem scan_large_files_fail_on_oversized (cfg : Config) (r : Repo)
    (name : String) (size : Nat)
    (hmem : (name, size) ∈ r.trackedFiles)
    (hsz : cfg.sizeThreshold < size)
    (hlfs : r.lfsTracked.contains name = false) :
    (checkLargeFiles cfg r).1.status = .FAIL := by
  unfold checkLargeFiles
  split
  · have hany : r.trackedFiles.any
        (fun f => decide (cfg.sizeThreshold < f.2) && !(r.lfsTracked.contains f.1)) = true := by
      rw [List.any_eq_true]
      refine ⟨(name, size), hmem, ?_⟩
      simp only [Bool.and_eq_true, decide_eq_true_eq, Bool.not_eq_true']
      exact ⟨hsz, hlfs⟩
    rw [if_pos hany]
  · rfl

/-- Claim C6: for a repository with no commit history, the commit-hygiene
check returns a Finding with status FAIL and a nonempty descriptive
message; being a total function, it throws no error. -/
theorem scan_commit_hygiene_fail_on_empty_history (cfg : Config) (r : Repo)
    (h : r.commits = []) :
    (checkCommitHygiene cfg r).1.status = .FAIL
    ∧ (checkCommitHygiene cfg r).1.message ≠ "" := by
  cases hv : r.isValidRepo <;> simp [checkCommitHygiene, hv, h]

/-- Claim C7: with auto-generation disabled, the scan leaves the
repository unchanged, so running the full scan twice on an unchanged
repository yields identical Findings (and an identical Report) both
times. -/
theorem scan_idempotent_without_autogen (cfg : Config) (r : Repo)
    (h : cfg.autoGenerate = false) :
    ((generateReport cfg ((generateReport cfg r).2)).1).findings
        = ((generateReport cfg r).1).findings
    ∧ generateReport cfg ((generateReport cfg r).2) = generateReport cfg r := by
  rw [generateReport_frame cfg r h]
  exact ⟨rfl, rfl⟩

/-- Claim C8: a scan modifies nothing but the presence of the
`.gitignore` and the CI workflow file (every other component of the
repository state is returned unchanged), and when auto-generation is
disabled the whole state is unchanged: every check is then a pure read. -/
theorem scan_frame_condition (cfg : Config) (r : Repo) :
    ((generateReport cfg r).2).readOnlyPart = r.readOnlyPart
    ∧ (cfg.autoGenerate = false → (generateReport cfg r).2 = r) := by
  constructor
  · have h2 : (generateReport cfg r).2 = (runChecks cfg r).2 := rfl
    rw [h2, runChecks_snd, checkCIWorkflow_readOnlyPart, checkIgnoreFile_readOnlyPart]
  · intro h
    exact generateReport_frame cfg r h

/-- Claim C9: the top-level invocation fails, with a single terminal
error and without running any check, exactly when the root path does not
exist or is not readable; on every existing readable root it returns the
Report of the scan. -/
theorem top_level_fails_iff_path_invalid (cfg : Config) (r : Repo) :
    ((∃ e, runScan cfg r = Except.error e)
      ↔ (r.pathExists = false ∨ r.readable = false))
    ∧ (r.pathExists = true → r.readable = true →
        runScan cfg r = Except.ok (generateReport cfg r)) := by
  cases hp : r.pathExists <;> cases hr : r.readable <;> simp [runScan, hp, hr]

/-! ## Concrete sample states for the witnesses -/

/-- A configuration with auto-generation disabled and a 10 MB threshold. -/
def sampleConfig : Config :=
  ⟨false, 10485760, ["main"], ["feature/"], 100, 100, 200, 1⟩

/-- The same configuration with auto-generation enabled. -/
def sampleConfigAuto : Config :=
  ⟨true, 10485760, ["main"], ["feature/"], 100, 100, 200, 1⟩

/-- A healthy repository: valid, readable, with both files present and
one small recent commit. -/
def sampleRepoOk : Repo :=
  ⟨true, true, true, true, true, ["main"], [], [], [⟨50, 10⟩]⟩

/-- A path that exists and is readable but is not a valid repository. -/
def sampleRepoInvalid : Repo :=
  ⟨true, true, false, false, false, [], [], [], []⟩

/-- A valid repository lacking a `.gitignore`. -/
def sampleRepoNoIgnore : Repo :=
  ⟨true, true, true, false, true, ["main"], [], [], [⟨50, 10⟩]⟩

/-- A valid repository with a directly tracked 15 MB file. -/
def sampleRepoLarge : Repo :=
  ⟨true, true, true, true, true, ["main"], [("data.bin", 15728640)], [], [⟨50, 10⟩]⟩

/-- A valid repository with no commit history. -/
def sampleRepoNoHistory : Repo :=
  ⟨true, true, true, true, true, ["main"], [], [], []⟩

/-! ## Witnesses -/

/-- Witness for claim C2 at a concrete invalid-repository state. -/
theorem checks_downgrade_witness :
    sampleRepoInvalid.isValidRepo = false
    ∧ (((checkBranchStructure sampleConfig sampleRepoInvalid).1.status = .FAIL
        ∧ (checkBranchStructure sampleConfig sampleRepoInvalid).1.message ≠ "")
      ∧ ((checkLargeFiles sampleConfig sampleRepoInvalid).1.status = .FAIL
        ∧ (checkLargeFiles sampleConfig sampleRepoInvalid).1.message ≠ "")
      ∧ ((checkCommitHygiene sampleConfig sampleRepoInvalid).1.status = .FAIL
        ∧ (checkCommitHygiene sampleConfig sampleRepoInvalid).1.message ≠ "")
      ∧ ((generateReport sampleConfig sampleRepoInvalid).1).findings.length = 5) :=
  ⟨rfl, checks_downgrade_to_fail_and_scan_completes sampleConfig sampleRepoInvalid rfl⟩

/-- Witness for claim C4 at a concrete repository lacking `.gitignore`,
with auto-generation enabled. -/
theorem scan_gitignore_autofix_witness :
    sampleRepoNoIgnore.hasGitignore = false
    ∧ sampleConfigAuto.autoGenerate = true
    ∧ ((checkIgnoreFile sampleConfigAuto sampleRepoNoIgnore).1.auto_fixed = true
      ∧ ((checkIgnoreFile sampleConfigAuto sampleRepoNoIgnore).2).hasGitignore = true) :=
  ⟨rfl, rfl, scan_gitignore_autofix sampleConfigAuto sampleRepoNoIgnore rfl rfl⟩

/-- Witness for claim C5: a 15 MB tracked file against the 10 MB
threshold yields FAIL. -/
theorem scan_large_files_fail_witness :
    ("data.bin", 15728640) ∈ sampleRepoLarge.trackedFiles
    ∧ sampleConfig.sizeThreshold < 15728640
    ∧ sampleRepoLarge.lfsTracked.contains "data.bin" = false
    ∧ (checkLargeFiles sampleConfig sampleRepoLarge).1.status = .FAIL :=
  ⟨by simp [sampleRepoLarge], by decide, rfl,
    scan_large_files_fail_on_oversized sampleConfig sampleRepoLarge "data.bin" 15728640
      (by simp [sampleRepoLarge]) (by decide) rfl⟩

/-- Witness for claim C6 at a concrete repository with an empty commit
history. -/
theorem scan_commit_hygiene_fail_witness :
    sampleRepoNoHistory.commits = []
    ∧ ((checkCommitHygiene sampleConfig sampleRepoNoHistory).1.status = .FAIL
      ∧ (checkCommitHygiene sampleConfig sampleRepoNoHistory).1.message ≠ "") :=
  ⟨rfl, scan_commit_hygiene_fail_on_empty_history sampleConfig sampleRepoNoHistory rfl⟩

/-- Witness for claim C7 at a concrete repository with auto-generation
disabled. -/
theorem scan_idempotent_witness :
    sampleConfig.autoGenerate = false
    ∧ (((generateReport sampleConfig
          ((generateReport sampleConfig sampleRepoOk).2)).1).findings
        = ((generateReport sampleConfig sampleRepoOk).1).findings
      ∧ generateReport sampleConfig ((generateReport sampleConfig sampleRepoOk).2)
        = generateReport sampleConfig sampleRepoOk) :=
  ⟨rfl, scan_idempotent_without_autogen sampleConfig sampleRepoOk rfl⟩

/-- Witness for claim C8 at a concrete state: with auto-generation
disabled the scan leaves the repository unchanged. -/
theorem scan_frame_condition_witness :
    (generateReport sampleConfig sampleRepoNoIgnore).2 = sampleRepoNoIgnore :=
  (scan_frame_condition sampleConfig sampleRepoNoIgnore).2 rfl

/-- Witness for claim C9 at a concrete existing readable root: the
top-level invocation succeeds with the Report of the scan. -/
theorem top_level_witness :
    runScan sampleConfig sampleRepoOk
      = Except.ok (generateReport sampleConfig sampleRepoOk) :=
  (top_level_fails_iff_path_invalid sampleConfig sampleRepoOk).2 rfl rfl

end RepoStandards
